import Mathlib

/-!
Shallow embedding of the mpv-embed native wrapper
(src/native/mpv-embed/src/lib.rs): library resolution, symbol binding,
and the `MpvHandle` playback-handle methods. Native ABI calls are
modelled by oracle parameters (status codes, lookup results); opaque
pointers are modelled as `Nat` with `0` standing for the null pointer.
-/

set_option maxHeartbeats 1000000

/-- The bound symbol table (`struct MpvFunctions`). Function pointers are
opaque values, modelled as `Nat`; the source fields `initialize` and
`set_option` are named `initialize_fn` and `set_option_fn` here (both are
reserved words). `set_log_level` is optional, as in the source. -/
structure MpvFunctions where
  create : Nat
  destroy : Nat
  initialize_fn : Nat
  set_option_fn : Nat
  set_option_string : Nat
  set_property : Nat
  get_property : Nat
  command : Nat
  set_log_level : Option Nat
deriving DecidableEq

/-- The playback handle's own state (`struct MpvHandle`): the native
instance pointer (`0` = null) and the surface-attached flag. -/
structure MpvHandleState where
  handle : Nat
  attached : Bool
deriving DecidableEq

/-- Outcome of a Rust function that can return `Ok`, return `Err`, or
panic (e.g. via `unwrap()` on an `Err`). -/
inductive RustOutcome (α : Type) where
  | ok : α → RustOutcome α
  | error : String → RustOutcome α
  | panicked : RustOutcome α
deriving DecidableEq

/-- `CString::new` on a byte sequence: fails (returns `none`) when the
input contains an embedded NUL byte, otherwise appends the terminator. -/
def cstring_new (s : List Nat) : Option (List Nat) :=
  if s.contains 0 then none else some (s ++ [0])

/-- Modelled from the source's use of `NulError`'s display text (the
exact wording of the message is irrelevant to the claims; only that a
structured error, not a panic, carries it). -/
def nul_error_msg : String := "nul byte found in provided data"

/-- The 8 required native entry-point names, in the order the source
looks them up (`load_symbols_from_lib`). -/
def requiredSymbols : List String :=
  ["mpv_create", "mpv_destroy", "mpv_initialize", "mpv_set_option",
   "mpv_set_option_string", "mpv_set_property", "mpv_get_property", "mpv_command"]

/-- `load_symbols_from_lib`: looks up each required symbol in order,
returning at the first failure an error naming the symbol and the
underlying lookup error; the optional `mpv_set_log_level` is looked up
with `.ok()` semantics (absence tolerated). The loaded library is the
`lookup` oracle itself. -/
def load_symbols_from_lib (lookup : String → Except String Nat) :
    Except String MpvFunctions :=
  match lookup "mpv_create" with
  | .error e => .error ("mpv_create: " ++ e)
  | .ok vCreate =>
  match lookup "mpv_destroy" with
  | .error e => .error ("mpv_destroy: " ++ e)
  | .ok vDestroy =>
  match lookup "mpv_initialize" with
  | .error e => .error ("mpv_initialize: " ++ e)
  | .ok vInit =>
  match lookup "mpv_set_option" with
  | .error e => .error ("mpv_set_option: " ++ e)
  | .ok vSetOption =>
  match lookup "mpv_set_option_string" with
  | .error e => .error ("mpv_set_option_string: " ++ e)
  | .ok vSetOptionString =>
  match lookup "mpv_set_property" with
  | .error e => .error ("mpv_set_property: " ++ e)
  | .ok vSetProperty =>
  match lookup "mpv_get_property" with
  | .error e => .error ("mpv_get_property: " ++ e)
  | .ok vGetProperty =>
  match lookup "mpv_command" with
  | .error e => .error ("mpv_command: " ++ e)
  | .ok vCommand =>
    .ok { create := vCreate, destroy := vDestroy, initialize_fn := vInit,
          set_option_fn := vSetOption, set_option_string := vSetOptionString,
          set_property := vSetProperty, get_property := vGetProperty,
          command := vCommand,
          set_log_level := (lookup "mpv_set_log_level").toOption }

/-- The failure entry contributed by one symbol name: the name and the
lookup error when the lookup fails, nothing when it succeeds. -/
def symbolFailureEntry (lookup : String → Except String Nat) (n : String) :
    Option (String × String) :=
  match lookup n with
  | .error e => some (n, e)
  | .ok _ => none

/-- The first required symbol (in lookup order) whose lookup fails,
together with its lookup error, if any. -/
def firstRequiredFailure (lookup : String → Except String Nat) :
    Option (String × String) :=
  requiredSymbols.findSome? (symbolFailureEntry lookup)

/-- The candidate DLL names, in order (`dll_names` in
`load_mpv_library`). -/
def dll_names : List String := ["libmpv-2.dll", "mpv.dll", "libmpv.dll"]

/-- The environment the library resolver runs in: the outcome of a
bare-name library load, existence and load outcome per search location,
the symbol-binding outcome per loaded library (a `Nat` module id), and
the search-path list built from the process environment. -/
structure ResolveEnv where
  bareLoad : String → Except String Nat
  pathExists : String → String → Bool
  pathLoad : String → String → Except String Nat
  symbols : Nat → Except String MpvFunctions
  searchPaths : List String

/-- The inner loop of `load_mpv_library` over the search paths for one
DLL name: skip non-existing locations; on a load or symbol failure record
a formatted message as the last error and continue; on full success stop.
Returns the found table (if any) and the resulting last error. -/
def searchLocations (env : ResolveEnv) (dllName : String) :
    List String → Option String → Option MpvFunctions × Option String
  | [], lastErr => (none, lastErr)
  | p :: rest, lastErr =>
    if env.pathExists p dllName then
      match env.pathLoad p dllName with
      | .ok lib =>
        match env.symbols lib with
        | .ok funcs => (some funcs, lastErr)
        | .error e =>
          searchLocations env dllName rest
            (some ("Failed to load symbols from " ++ p ++ "/" ++ dllName ++ ": " ++ e))
      | .error e =>
        searchLocations env dllName rest
          (some ("Failed to load " ++ dllName ++ " from " ++ p ++ "/" ++ dllName ++ ": " ++ e))
    else
      searchLocations env dllName rest lastErr

/-- The outer loop of `load_mpv_library` over candidate DLL names: try a
bare-name load first (its load error, if any, is discarded); on bare-name
success try the symbols, recording a symbol failure as the last error; on
bare-name failure walk the search locations. Ends with the last error, or
the generic message when none was recorded. -/
def load_mpv_library_aux (env : ResolveEnv) :
    List String → Option String → Except String MpvFunctions
  | [], lastErr => .error (lastErr.getD "No mpv DLL found")
  | n :: rest, lastErr =>
    match env.bareLoad n with
    | .ok lib =>
      match env.symbols lib with
      | .ok funcs => .ok funcs
      | .error e => load_mpv_library_aux env rest (some e)
    | .error _ =>
      match searchLocations env n env.searchPaths lastErr with
      | (some funcs, _) => .ok funcs
      | (none, lastErr') => load_mpv_library_aux env rest lastErr'

/-- `load_mpv_library`: resolve the native library over the fixed
candidate names. -/
def load_mpv_library (env : ResolveEnv) : Except String MpvFunctions :=
  load_mpv_library_aux env dll_names none

/-- The process-wide state backing the `MPV_FUNCS` once-cell: the
memoized outcome (if initialized) and an instrumentation counter of how
many times the resolver has been run. -/
structure ProcessState where
  mpvFuncsCell : Option (Except String MpvFunctions)
  probeCount : Nat

/-- `get_mpv_funcs` / `MPV_FUNCS.get_or_init(load_mpv_library)`: return
the memoized outcome if present, else run the loader once, memoize its
outcome and count the probe. -/
def get_mpv_funcs (loader : Unit → Except String MpvFunctions)
    (ps : ProcessState) : Except String MpvFunctions × ProcessState :=
  match ps.mpvFuncsCell with
  | some r => (r, ps)
  | none =>
    let r := loader ()
    (r, { mpvFuncsCell := some r, probeCount := ps.probeCount + 1 })

/-- `check_err`: negative native status codes become structured errors
carrying the code and the logical context string. -/
def check_err (code : Int) (ctx : String) : Except String Unit :=
  if code < 0 then .error ("mpv error " ++ toString code ++ ": " ++ ctx)
  else .ok ()

namespace MpvHandle

/-- `MpvHandle::create`: fails with the memoized resolution failure if
the symbol table is unavailable; fails if the native create call returned
null (`inst = 0`); otherwise succeeds with a fresh non-attached handle.
The returned `Bool` records whether the optional log-level entry point
was invoked; its status `_logStatus` is discarded by the source
(`let _ = set_log_level(h, 0)`). -/
def create (funcs : Except String MpvFunctions) (inst : Nat)
    (_logStatus : Int) : Except String MpvHandleState × Bool :=
  match funcs with
  | .error e => (.error e, false)
  | .ok f =>
    if inst = 0 then (.error "mpv_create failed", false)
    else (.ok { handle := inst, attached := false }, f.set_log_level.isSome)

/-- The fixed baseline option list applied by `MpvHandle::init`, in
source order. -/
def initOpts : List (String × String) :=
  [("force-window", "yes"), ("keep-open", "yes"), ("ytdl", "no"),
   ("vo", "gpu"), ("gpu-context", "d3d11"), ("hwdec", "auto-safe"),
   ("video-sync", "display-resample")]

/-- The option loop of `MpvHandle::init`: apply each key/value pair via
the native set-option-string call (status given by the oracle `so`),
failing at the first negative status with the option name as context. -/
def applyOpts (so : String → String → Int) :
    List (String × String) → Except String Unit
  | [] => .ok ()
  | (k, v) :: rest =>
    match check_err (so k v) k with
    | .error e => .error e
    | .ok _ => applyOpts so rest

/-- `MpvHandle::init`: apply the baseline options, then call the native
initialize entry point (status `initStatus`). The returned `Bool` records
whether initialize was invoked. -/
def init (funcs : Except String MpvFunctions) (so : String → String → Int)
    (initStatus : Int) : Except String Unit × Bool :=
  match funcs with
  | .error e => (.error e, false)
  | .ok _ =>
    match applyOpts so initOpts with
    | .error e => (.error e, false)
    | .ok _ => (check_err initStatus "initialize", true)

/-- `MpvHandle::set_option_string`: converts both caller strings with
`CString::new`, mapping a conversion failure to a structured error, then
issues the native call (status `status`). -/
def set_option_string (funcs : Except String MpvFunctions)
    (key value : List Nat) (status : Int) : RustOutcome Unit :=
  match funcs with
  | .error e => .error e
  | .ok _ =>
    match cstring_new key with
    | none => .error nul_error_msg
    | some _ =>
      match cstring_new value with
      | none => .error nul_error_msg
      | some _ =>
        match check_err status "set_option_string" with
        | .error e => .error e
        | .ok _ => .ok ()

/-- The failure message built by `MpvHandle::attach_hwnd` when both
attempts to set the window id fail. -/
def widFailMessage (optResult propResult : Int) (hwnd : Nat) : String :=
  "Failed to set wid: option=" ++ toString optResult ++
    ", property=" ++ toString propResult ++ ", hwnd=" ++ toString hwnd

/-- `MpvHandle::attach_hwnd`: set the "wid" option (status `optResult`);
if negative, fall back to setting the property (status `propResult`) and
fail only if that is also negative; if the option succeeded the
redundant property attempt's failure is ignored. On every success path
the attached flag is set. Returns the call result and the new handle
state. -/
def attach_hwnd (funcs : Except String MpvFunctions) (st : MpvHandleState)
    (hwnd : Nat) (optResult propResult : Int) :
    Except String Unit × MpvHandleState :=
  match funcs with
  | .error e => (.error e, st)
  | .ok _ =>
    if optResult < 0 then
      if propResult < 0 then
        (.error (widFailMessage optResult propResult hwnd), st)
      else
        (.ok (), { st with attached := true })
    else
      (.ok (), { st with attached := true })

/-- `MpvHandle::load`: builds the "loadfile <url> replace" command. The
caller-supplied url goes through `CString::new(url).unwrap()`, which
panics on an embedded NUL; otherwise the native command call's status is
checked. -/
def load (funcs : Except String MpvFunctions) (url : List Nat)
    (commandStatus : Int) : RustOutcome Unit :=
  match funcs with
  | .error e => .error e
  | .ok _ =>
    match cstring_new url with
    | none => .panicked
    | some _ =>
      match check_err commandStatus "loadfile" with
      | .error e => .error e
      | .ok _ => .ok ()

/-- `MpvHandle::shutdown`: after obtaining the symbol table, calls the
native destroy entry point unconditionally on the stored instance
pointer; the handle state is not modified (the receiver is `&self`).
Returns the call result, the (unchanged) handle state, and the number of
destroy invocations this call performed. -/
def shutdown (funcs : Except String MpvFunctions) (st : MpvHandleState) :
    Except String Unit × MpvHandleState × Nat :=
  match funcs with
  | .error e => (.error e, st, 0)
  | .ok _ => (.ok (), st, 1)

/-- `Drop for MpvHandle`: if the symbol table is available and the stored
instance pointer is non-null, call destroy. Returns the number of destroy
invocations. -/
def dropHandle (funcs : Except String MpvFunctions)
    (st : MpvHandleState) : Nat :=
  match funcs with
  | .error _ => 0
  | .ok _ => if st.handle ≠ 0 then 1 else 0

/-- The snapshot returned by `MpvHandle::get_state`. Double-valued native
properties are modelled as rationals (their values only pass through). -/
structure StateSnapshot where
  ready : Bool
  paused : Bool
  time : Rat
  duration : Rat
  volume : Rat
  mute : Bool
deriving DecidableEq

/-- `MpvHandle::get_state`: five native property reads, each modelled as
`Option` (`none` = the read failed and the stack buffer keeps its zero
initialization). Every read result is discarded with `let _ = ...` in the
source; the snapshot is always built, with `ready := true`. -/
def get_state (funcs : Except String MpvFunctions)
    (pausedRead : Option Int) (timeRead durationRead volumeRead : Option Rat)
    (muteRead : Option Int) : Except String StateSnapshot :=
  match funcs with
  | .error e => .error e
  | .ok _ =>
    .ok { ready := true
          paused := pausedRead.getD 0 != 0
          time := timeRead.getD 0
          duration := durationRead.getD 0
          volume := volumeRead.getD 0
          mute := muteRead.getD 0 != 0 }

end MpvHandle

/-!
Claim-shaped restatement of the library resolver (for the refinement
claim about `load_mpv_library`): resolution is a linear sequence of load
attempts, scanned for the first full success while tracking the last
recorded error.
-/

/-- The outcome of one load attempt in the claim-shaped resolver: full
success (library loaded and symbols bound), a failure whose error is
discarded, or a failure recorded as the last error. -/
inductive AttemptOutcome where
  | success : MpvFunctions → AttemptOutcome
  | failSilent : AttemptOutcome
  | failRecorded : String → AttemptOutcome
deriving DecidableEq

/-- Scan a list of attempt outcomes: the first success wins; recorded
failures update the last error. Returns the winning table (if any) and
the final last error. -/
def scanOutcomes : List AttemptOutcome → Option String →
    Option MpvFunctions × Option String
  | [], lastErr => (none, lastErr)
  | .success f :: _, lastErr => (some f, lastErr)
  | .failSilent :: rest, lastErr => scanOutcomes rest lastErr
  | .failRecorded e :: rest, _ => scanOutcomes rest (some e)

/-- Resolve over candidate names given a per-name attempt list: the first
name whose attempts contain a success wins; otherwise the final last
error (or the generic message) is returned. -/
def resolveByAttempts (attempts : String → List AttemptOutcome) :
    List String → Option String → Except String MpvFunctions
  | [], lastErr => .error (lastErr.getD "No mpv DLL found")
  | n :: rest, lastErr =>
    match scanOutcomes (attempts n) lastErr with
    | (some f, _) => .ok f
    | (none, lastErr') => resolveByAttempts attempts rest lastErr'

/-- The outcome of one explicit-path load attempt: skip is handled by the
caller's filter; a load or symbol failure is recorded with the formatted
message; full success is `success`. -/
def pathAttempt (env : ResolveEnv) (n p : String) : AttemptOutcome :=
  match env.pathLoad p n with
  | .ok lib =>
    match env.symbols lib with
    | .ok f => .success f
    | .error e =>
      .failRecorded ("Failed to load symbols from " ++ p ++ "/" ++ n ++ ": " ++ e)
  | .error e =>
    .failRecorded ("Failed to load " ++ n ++ " from " ++ p ++ "/" ++ n ++ ": " ++ e)

/-- The explicit-path attempts for one candidate name: one per search
location at which the file exists, in order. -/
def pathAttempts (env : ResolveEnv) (n : String) (paths : List String) :
    List AttemptOutcome :=
  (paths.filter (fun p => env.pathExists p n)).map (pathAttempt env n)

/-- The per-name attempt list as amended: first the bare-name load (whose
load error is discarded — `failSilent` — though a symbol-binding failure
after a successful bare-name load is recorded); then, only if the
bare-name load failed, one attempt per existing search location. -/
def claimAttemptsAmended (env : ResolveEnv) (n : String) :
    List AttemptOutcome :=
  match env.bareLoad n with
  | .ok lib =>
    [match env.symbols lib with
     | .ok f => .success f
     | .error e => .failRecorded e]
  | .error _ => .failSilent :: pathAttempts env n env.searchPaths

/-- The per-name attempt list exactly as the claim states it: every
failed load attempt's error is "encountered", so a failed bare-name load
is recorded as the last error rather than discarded. -/
def claimAttemptsStated (env : ResolveEnv) (n : String) :
    List AttemptOutcome :=
  match env.bareLoad n with
  | .ok lib =>
    [match env.symbols lib with
     | .ok f => .success f
     | .error e => .failRecorded e]
  | .error e => .failRecorded e :: pathAttempts env n env.searchPaths

/-- The claim's reading of the resolver, with the amended failure
accounting (bare-name load errors discarded). -/
def resolveClaimAmended (env : ResolveEnv) : Except String MpvFunctions :=
  resolveByAttempts (claimAttemptsAmended env) dll_names none

/-- The claim's reading of the resolver exactly as stated ("fails with
the last encountered load error, or a generic not-found message if no
load was ever attempted"). -/
def resolveClaimStated (env : ResolveEnv) : Except String MpvFunctions :=
  resolveByAttempts (claimAttemptsStated env) dll_names none

/-!
Concrete fixtures used by counterexamples and witnesses.
-/

/-- A concrete symbol table. -/
def funcs0 : MpvFunctions :=
  { create := 1, destroy := 2, initialize_fn := 3, set_option_fn := 4,
    set_option_string := 5, set_property := 6, get_property := 7,
    command := 8, set_log_level := none }

/-- A concrete handle state with a non-null native instance pointer. -/
def st0 : MpvHandleState := { handle := 5, attached := false }

/-- A resolver environment in which every bare-name load fails with a
concrete error and no search location exists. -/
def env0 : ResolveEnv :=
  { bareLoad := fun _ => .error "cannot open shared object"
    pathExists := fun _ _ => false
    pathLoad := fun _ _ => .error "unused"
    symbols := fun _ => .error "unused"
    searchPaths := [] }

/-- A loader that always fails, for exercising the memoized accessor. -/
def loader0 : Unit → Except String MpvFunctions := fun _ => .error "no dll"

/-- A fresh process state: cell uninitialized, no probes yet. -/
def ps0 : ProcessState := { mpvFuncsCell := none, probeCount := 0 }

/-- A symbol lookup in which only the optional entry point is absent. -/
def lookupNoLog : String → Except String Nat := fun n =>
  if n = "mpv_set_log_level" then .error "symbol not found" else .ok 1

/-- A per-option status oracle that always reports success. -/
def optOk : String → String → Int := fun _ _ => 0

/-!
Helper lemmas.
-/

/-- `applyOpts` fails exactly at the first option whose status is
negative, with the message `check_err` builds from that status and the
option name; it succeeds when no option status is negative. -/
theorem applyOpts_eq (so : String → String → Int) (l : List (String × String)) :
    MpvHandle.applyOpts so l =
      match l.find? (fun kv => decide (so kv.1 kv.2 < 0)) with
      | some kv => .error ("mpv error " ++ toString (so kv.1 kv.2) ++ ": " ++ kv.1)
      | none => .ok () := by
  induction l with
  | nil => rfl
  | cons kv rest ih =>
    obtain ⟨k, v⟩ := kv
    by_cases h : so k v < 0
    · simp [MpvHandle.applyOpts, check_err, h, List.find?_cons]
    · simp [MpvHandle.applyOpts, check_err, h, List.find?_cons, ih]

/-- The resolver's inner path loop is the scan of the per-path attempt
outcomes. -/
theorem searchLocations_eq_scan (env : ResolveEnv) (n : String) :
    ∀ (paths : List String) (lastErr : Option String),
      searchLocations env n paths lastErr =
        scanOutcomes (pathAttempts env n paths) lastErr := by
  intro paths
  induction paths with
  | nil => intro lastErr; rfl
  | cons p rest ih =>
    intro lastErr
    by_cases hp : env.pathExists p n
    · cases hl : env.pathLoad p n with
      | ok lib =>
        cases hs : env.symbols lib with
        | ok f =>
          simp [searchLocations, scanOutcomes, pathAttempts, pathAttempt,
                hp, hl, hs, List.filter_cons]
        | error e =>
          simp only [searchLocations, hp, hl, hs, if_true]
          rw [ih]
          simp [scanOutcomes, pathAttempts, pathAttempt, hp, hl, hs,
                List.filter_cons]
      | error e =>
        simp only [searchLocations, hp, hl, if_true]
        rw [ih]
        simp [scanOutcomes, pathAttempts, pathAttempt, hp, hl,
              List.filter_cons]
    · simp [searchLocations, scanOutcomes, pathAttempts, hp,
            List.filter_cons, ih]

/-- The resolver's outer loop over candidate names agrees with the
claim-shaped scan using the amended attempt accounting. -/
theorem load_mpv_library_aux_eq (env : ResolveEnv) :
    ∀ (names : List String) (lastErr : Option String),
      load_mpv_library_aux env names lastErr =
        resolveByAttempts (claimAttemptsAmended env) names lastErr := by
  intro names
  induction names with
  | nil => intro lastErr; rfl
  | cons n rest ih =>
    intro lastErr
    cases hb : env.bareLoad n with
    | ok lib =>
      cases hs : env.symbols lib with
      | ok f =>
        simp [load_mpv_library_aux, resolveByAttempts, claimAttemptsAmended,
              scanOutcomes, hb, hs]
      | error e =>
        simp [load_mpv_library_aux, resolveByAttempts, claimAttemptsAmended,
              scanOutcomes, hb, hs, ih]
    | error e =>
      simp only [load_mpv_library_aux, resolveByAttempts,
                 claimAttemptsAmended, hb]
      rw [searchLocations_eq_scan]
      show (match scanOutcomes (pathAttempts env n env.searchPaths) lastErr with
            | (some funcs, _) => Except.ok funcs
            | (none, lastErr') => load_mpv_library_aux env rest lastErr') =
           (match scanOutcomes (.failSilent :: pathAttempts env n env.searchPaths) lastErr with
            | (some f, _) => Except.ok f
            | (none, lastErr') => resolveByAttempts (claimAttemptsAmended env) rest lastErr')
      rw [show scanOutcomes (.failSilent :: pathAttempts env n env.searchPaths) lastErr =
            scanOutcomes (pathAttempts env n env.searchPaths) lastErr from rfl]
      cases hres : scanOutcomes (pathAttempts env n env.searchPaths) lastErr with
      | mk o l' => cases o <;> simp [ih]

/-!
Claim theorems.
-/

/-- Claim C1 (code evaluated at the failing scenario): `shutdown` invokes
the native destroy entry point on every call (it neither checks the
instance pointer for null nor nulls it afterwards — the receiver is
`&self`), so two consecutive shutdowns on a live handle invoke destroy
twice, the pointer is still non-null afterwards, and a subsequent
disposal invokes destroy a third time. This contradicts the claim that
destroy is invoked at most once. -/
theorem shutdown_invokes_destroy_each_time :
    (MpvHandle.shutdown (.ok funcs0) st0).2.2 +
        (MpvHandle.shutdown (.ok funcs0)
          (MpvHandle.shutdown (.ok funcs0) st0).2.1).2.2 = 2
    ∧ (MpvHandle.shutdown (.ok funcs0) st0).2.1.handle = 5
    ∧ MpvHandle.dropHandle (.ok funcs0)
        (MpvHandle.shutdown (.ok funcs0) st0).2.1 = 1 := by
  refine ⟨rfl, rfl, ?_⟩
  decide

/-- Claim C2 (code evaluated at the failing input): `load` on a URI with
an embedded NUL byte panics (the source unwraps the `CString`
conversion) instead of returning a structured failure, while
`set_option_string` on the same kind of input does return a structured
failure as the claim describes. -/
theorem load_panics_on_embedded_nul :
    MpvHandle.load (.ok funcs0) [97, 0, 98] 0 = .panicked
    ∧ MpvHandle.set_option_string (.ok funcs0) [97, 0, 98] [121] 0 =
        .error nul_error_msg := by
  constructor <;> rfl

/-- Claim C3, counterexample: in an environment where every bare-name
load fails with a concrete error and no search location exists, the code
returns the generic "No mpv DLL found" message even though load attempts
were made and all failed — the claim as stated (fail with the last
encountered load error; generic message only if no load was ever
attempted) requires the bare-name load error instead. -/
theorem resolver_discards_bare_load_errors :
    load_mpv_library env0 ≠ resolveClaimStated env0 := by
  have h1 : load_mpv_library env0 = Except.error "No mpv DLL found" := rfl
  have h2 : resolveClaimStated env0 =
      Except.error "cannot open shared object" := rfl
  rw [h1, h2]
  intro h
  injection h with h'
  exact absurd h' (by decide)

/-- Claim C3, amended: library resolution tries each candidate filename
first by bare name and then, only if the bare-name load fails, from each
existing search location in order; the first fully successful load wins
and resolution stops there; on total failure it fails with the last
recorded error — where bare-name load failures are discarded, and only
symbol-binding failures and explicit-path load/bind failures are
recorded — or the generic not-found message when no error was recorded,
even if bare-name loads were attempted and failed. -/
theorem load_mpv_library_refines_claim (env : ResolveEnv) :
    load_mpv_library env = resolveClaimAmended env :=
  load_mpv_library_aux_eq env dll_names none

/-- Claim C4: `attach_hwnd` fails exactly when both the option attempt
and the fallback property attempt report a negative status; its failure
message contains both status codes and the supplied display-handle
value; on every success path (including option failed but property
succeeded, and option succeeded while the redundant property attempt
failed) it returns success and sets the attached flag. -/
theorem attach_hwnd_spec (f : MpvFunctions) (st : MpvHandleState)
    (hwnd : Nat) (optResult propResult : Int) :
    MpvHandle.attach_hwnd (.ok f) st hwnd optResult propResult =
      (if optResult < 0 ∧ propResult < 0 then
        (.error (MpvHandle.widFailMessage optResult propResult hwnd), st)
      else (.ok (), { st with attached := true }))
    ∧ List.IsInfix (toString optResult).data
        (MpvHandle.widFailMessage optResult propResult hwnd).data
    ∧ List.IsInfix (toString propResult).data
        (MpvHandle.widFailMessage optResult propResult hwnd).data
    ∧ List.IsInfix (toString hwnd).data
        (MpvHandle.widFailMessage optResult propResult hwnd).data := by
  refine ⟨?_, ?_, ?_, ?_⟩
  · unfold MpvHandle.attach_hwnd
    by_cases h1 : optResult < 0 <;> by_cases h2 : propResult < 0 <;>
      simp [h1, h2]
  · exact ⟨"Failed to set wid: option=".data,
      (", property=" ++ toString propResult ++ ", hwnd=" ++ toString hwnd).data,
      by simp [MpvHandle.widFailMessage, String.data_append]⟩
  · exact ⟨("Failed to set wid: option=" ++ toString optResult ++ ", property=").data,
      (", hwnd=" ++ toString hwnd).data,
      by simp [MpvHandle.widFailMessage, String.data_append]⟩
  · exact ⟨("Failed to set wid: option=" ++ toString optResult ++ ", property=" ++
        toString propResult ++ ", hwnd=").data, [],
      by simp [MpvHandle.widFailMessage, String.data_append]⟩

/-- Claim C5: `get_state` never fails as a whole once the symbol table is
reachable: for every combination of read outcomes it returns a snapshot
with `ready = true` in which each field whose read failed keeps its
zero/false default. -/
theorem get_state_never_fails (f : MpvFunctions) (pr : Option Int)
    (tr dr vr : Option Rat) (mr : Option Int) :
    ∃ s, MpvHandle.get_state (.ok f) pr tr dr vr mr = .ok s
      ∧ s.ready = true
      ∧ (pr = none → s.paused = false)
      ∧ (tr = none → s.time = 0)
      ∧ (dr = none → s.duration = 0)
      ∧ (vr = none → s.volume = 0)
      ∧ (mr = none → s.mute = false) := by
  refine ⟨_, rfl, rfl, ?_, ?_, ?_, ?_, ?_⟩ <;> rintro rfl <;> rfl

/-- Witness for claim C5: every property read fails and the snapshot is
still returned with all defaults. -/
theorem get_state_never_fails_witness :
    ∃ s, MpvHandle.get_state (.ok funcs0) none none none none none = .ok s
      ∧ s.ready = true
      ∧ ((none : Option Int) = none → s.paused = false)
      ∧ ((none : Option Rat) = none → s.time = 0)
      ∧ ((none : Option Rat) = none → s.duration = 0)
      ∧ ((none : Option Rat) = none → s.volume = 0)
      ∧ ((none : Option Int) = none → s.mute = false) :=
  get_state_never_fails funcs0 none none none none none

/-- Claim C6: the process-wide symbol-table binding is memoized — a
second access returns the identical cached outcome with an unchanged
state (in particular no further probe), one access runs the resolver at
most once, an initialized cell is returned as-is, and a memoized
resolution failure is what `create` returns on every call. -/
theorem mpv_funcs_memoized (loader : Unit → Except String MpvFunctions)
    (ps : ProcessState) :
    get_mpv_funcs loader ((get_mpv_funcs loader ps).2) = get_mpv_funcs loader ps
    ∧ ((get_mpv_funcs loader ps).2).probeCount ≤ ps.probeCount + 1
    ∧ (∀ r, ps.mpvFuncsCell = some r → get_mpv_funcs loader ps = (r, ps))
    ∧ (∀ e (inst : Nat) (lr : Int), (get_mpv_funcs loader ps).1 = .error e →
        MpvHandle.create (get_mpv_funcs loader ps).1 inst lr =
          (.error e, false)) := by
  cases h : ps.mpvFuncsCell with
  | some r =>
    have hg : get_mpv_funcs loader ps = (r, ps) := by
      simp [get_mpv_funcs, h]
    refine ⟨by rw [hg]; exact hg, by rw [hg]; exact Nat.le_succ _, ?_, ?_⟩
    · intro r' hr
      injection hr with hr'
      subst hr'
      exact hg
    · intro e inst lr he
      rw [he]
      simp [MpvHandle.create]
  | none =>
    have hg : get_mpv_funcs loader ps =
        (loader (), { mpvFuncsCell := some (loader ())
                      probeCount := ps.probeCount + 1 }) := by
      simp [get_mpv_funcs, h]
    refine ⟨?_, by rw [hg], ?_, ?_⟩
    · rw [hg]
      simp [get_mpv_funcs]
    · intro r' hr
      exact absurd hr (by simp)
    · intro e inst lr he
      rw [he]
      simp [MpvHandle.create]

/-- Witness for claim C6: with no library present, the memoized failure
reason is exactly what `create` reports. -/
theorem mpv_funcs_memoized_witness :
    MpvHandle.create (get_mpv_funcs loader0 ps0).1 3 0 =
      (.error "no dll", false) :=
  (mpv_funcs_memoized loader0 ps0).2.2.2 "no dll" 3 0 rfl

/-- A name whose lookup fails contributes its failure entry at the head
of the required-symbol scan. -/
theorem findSome?_cons_entry_error {lookup : String → Except String Nat}
    {n : String} {e : String} (h : lookup n = .error e) (rest : List String) :
    (n :: rest).findSome? (symbolFailureEntry lookup) = some (n, e) := by
  rw [List.findSome?_cons]
  simp [symbolFailureEntry, h]

/-- A name whose lookup succeeds contributes nothing to the
required-symbol scan. -/
theorem findSome?_cons_entry_ok {lookup : String → Except String Nat}
    {n : String} {v : Nat} (h : lookup n = .ok v) (rest : List String) :
    (n :: rest).findSome? (symbolFailureEntry lookup) =
      rest.findSome? (symbolFailureEntry lookup) := by
  rw [List.findSome?_cons]
  simp [symbolFailureEntry, h]

/-- A name with no failure entry has a successful lookup. -/
theorem ok_of_entry_none {lookup : String → Except String Nat} {n : String}
    (h : symbolFailureEntry lookup n = none) : ∃ v, lookup n = .ok v := by
  cases hx : lookup n with
  | error e => rw [symbolFailureEntry, hx] at h; simp at h
  | ok v => exact ⟨v, rfl⟩

/-- Claim C7: symbol binding fails as a unit at the first required
lookup that fails, with an error naming the missing symbol and the
underlying lookup error; when every required lookup succeeds, binding
succeeds and the optional entry point is stored as whatever its own
lookup produced (absence tolerated as `none`); a table without the
optional entry point makes `create` skip the log-suppression step
(no native log call) without error. -/
theorem load_symbols_spec (lookup : String → Except String Nat) :
    (∀ n e, firstRequiredFailure lookup = some (n, e) →
      load_symbols_from_lib lookup = .error (n ++ ": " ++ e))
    ∧ (firstRequiredFailure lookup = none →
      ∃ f, load_symbols_from_lib lookup = .ok f
        ∧ f.set_log_level = (lookup "mpv_set_log_level").toOption)
    ∧ (∀ f : MpvFunctions, f.set_log_level = none →
        ∀ (inst : Nat) (lr : Int), inst ≠ 0 →
        MpvHandle.create (.ok f) inst lr =
          (.ok { handle := inst, attached := false }, false)) := by
  refine ⟨?_, ?_, ?_⟩
  · intro n e h
    rw [firstRequiredFailure, requiredSymbols] at h
    cases h1 : lookup "mpv_create" with
    | error e1 =>
      rw [findSome?_cons_entry_error h1] at h
      obtain ⟨rfl, rfl⟩ : "mpv_create" = n ∧ e1 = e := by simpa using h
      simp [load_symbols_from_lib, h1]
    | ok v1 =>
    rw [findSome?_cons_entry_ok h1] at h
    cases h2 : lookup "mpv_destroy" with
    | error e2 =>
      rw [findSome?_cons_entry_error h2] at h
      obtain ⟨rfl, rfl⟩ : "mpv_destroy" = n ∧ e2 = e := by simpa using h
      simp [load_symbols_from_lib, h1, h2]
    | ok v2 =>
    rw [findSome?_cons_entry_ok h2] at h
    cases h3 : lookup "mpv_initialize" with
    | error e3 =>
      rw [findSome?_cons_entry_error h3] at h
      obtain ⟨rfl, rfl⟩ : "mpv_initialize" = n ∧ e3 = e := by simpa using h
      simp [load_symbols_from_lib, h1, h2, h3]
    | ok v3 =>
    rw [findSome?_cons_entry_ok h3] at h
    cases h4 : lookup "mpv_set_option" with
    | error e4 =>
      rw [findSome?_cons_entry_error h4] at h
      obtain ⟨rfl, rfl⟩ : "mpv_set_option" = n ∧ e4 = e := by simpa using h
      simp [load_symbols_from_lib, h1, h2, h3, h4]
    | ok v4 =>
    rw [findSome?_cons_entry_ok h4] at h
    cases h5 : lookup "mpv_set_option_string" with
    | error e5 =>
      rw [findSome?_cons_entry_error h5] at h
      obtain ⟨rfl, rfl⟩ : "mpv_set_option_string" = n ∧ e5 = e := by simpa using h
      simp [load_symbols_from_lib, h1, h2, h3, h4, h5]
    | ok v5 =>
    rw [findSome?_cons_entry_ok h5] at h
    cases h6 : lookup "mpv_set_property" with
    | error e6 =>
      rw [findSome?_cons_entry_error h6] at h
      obtain ⟨rfl, rfl⟩ : "mpv_set_property" = n ∧ e6 = e := by simpa using h
      simp [load_symbols_from_lib, h1, h2, h3, h4, h5, h6]
    | ok v6 =>
    rw [findSome?_cons_entry_ok h6] at h
    cases h7 : lookup "mpv_get_property" with
    | error e7 =>
      rw [findSome?_cons_entry_error h7] at h
      obtain ⟨rfl, rfl⟩ : "mpv_get_property" = n ∧ e7 = e := by simpa using h
      simp [load_symbols_from_lib, h1, h2, h3, h4, h5, h6, h7]
    | ok v7 =>
    rw [findSome?_cons_entry_ok h7] at h
    cases h8 : lookup "mpv_command" with
    | error e8 =>
      rw [findSome?_cons_entry_error h8] at h
      obtain ⟨rfl, rfl⟩ : "mpv_command" = n ∧ e8 = e := by simpa using h
      simp [load_symbols_from_lib, h1, h2, h3, h4, h5, h6, h7, h8]
    | ok v8 =>
    rw [findSome?_cons_entry_ok h8] at h
    simp at h
  · intro h
    rw [firstRequiredFailure, requiredSymbols,
        List.findSome?_eq_none_iff] at h
    obtain ⟨v1, h1⟩ := ok_of_entry_none (h "mpv_create" (by simp))
    obtain ⟨v2, h2⟩ := ok_of_entry_none (h "mpv_destroy" (by simp))
    obtain ⟨v3, h3⟩ := ok_of_entry_none (h "mpv_initialize" (by simp))
    obtain ⟨v4, h4⟩ := ok_of_entry_none (h "mpv_set_option" (by simp))
    obtain ⟨v5, h5⟩ := ok_of_entry_none (h "mpv_set_option_string" (by simp))
    obtain ⟨v6, h6⟩ := ok_of_entry_none (h "mpv_set_property" (by simp))
    obtain ⟨v7, h7⟩ := ok_of_entry_none (h "mpv_get_property" (by simp))
    obtain ⟨v8, h8⟩ := ok_of_entry_none (h "mpv_command" (by simp))
    refine ⟨{ create := v1, destroy := v2, initialize_fn := v3,
              set_option_fn := v4, set_option_string := v5,
              set_property := v6, get_property := v7, command := v8,
              set_log_level := (lookup "mpv_set_log_level").toOption },
            ?_, rfl⟩
    simp [load_symbols_from_lib, h1, h2, h3, h4, h5, h6, h7, h8]
  · intro f hf inst lr hinst
    simp [MpvHandle.create, hf, hinst]

/-- Witness for claim C7: a library with all required symbols but
without the optional one binds successfully, stores the optional entry
as `none`, and `create` from such a table skips log suppression. -/
theorem load_symbols_spec_witness :
    (∃ f, load_symbols_from_lib lookupNoLog = .ok f
      ∧ f.set_log_level = (lookupNoLog "mpv_set_log_level").toOption)
    ∧ MpvHandle.create (.ok funcs0) 5 0 =
        (.ok { handle := 5, attached := false }, false) :=
  ⟨(load_symbols_spec lookupNoLog).2.1 (by decide),
   (load_symbols_spec lookupNoLog).2.2 funcs0 rfl 5 0 (by decide)⟩

/-- Claim C8: `init` applies the fixed seven-option baseline in order:
the first option whose native set call reports a negative status fails
the whole operation with a message naming that option, and the native
initialize entry point is not invoked; when no option fails, initialize
is invoked and its negative status is reported with the "initialize"
context by `check_err`. -/
theorem init_spec (f : MpvFunctions) (so : String → String → Int)
    (initStatus : Int) :
    (∀ k v,
      MpvHandle.initOpts.find? (fun kv => decide (so kv.1 kv.2 < 0)) =
          some (k, v) →
      MpvHandle.init (.ok f) so initStatus =
        (.error ("mpv error " ++ toString (so k v) ++ ": " ++ k), false))
    ∧ (MpvHandle.initOpts.find? (fun kv => decide (so kv.1 kv.2 < 0)) =
          none →
      MpvHandle.init (.ok f) so initStatus =
        (check_err initStatus "initialize", true))
    ∧ (∀ (c : Int) (s : String), c < 0 →
        check_err c s = .error ("mpv error " ++ toString c ++ ": " ++ s)) := by
  refine ⟨?_, ?_, ?_⟩
  · intro k v h
    simp [MpvHandle.init, applyOpts_eq, h]
  · intro h
    simp [MpvHandle.init, applyOpts_eq, h]
  · intro c s h
    simp [check_err, h]

/-- Witness for claim C8: with every option succeeding and a negative
initialize status, all options are applied, initialize is invoked and
its failure carries the "initialize" context. -/
theorem init_spec_witness :
    MpvHandle.init (.ok funcs0) optOk (-5) =
      (check_err (-5) "initialize", true)
    ∧ check_err (-5) "initialize" =
        .error ("mpv error " ++ toString (-5 : Int) ++ ": " ++ "initialize") :=
  ⟨(init_spec funcs0 optOk (-5)).2.1 (by decide),
   (init_spec funcs0 optOk (-5)).2.2 (-5) "initialize" (by decide)⟩

/-- Claim C9: `create` propagates the memoized resolution failure,
fails when the native create call returns a null instance, and
otherwise succeeds with a non-null instance pointer and the attached
flag false; the status of the best-effort log-suppression call never
influences the result. -/
theorem create_spec :
    (∀ e (inst : Nat) (lr : Int),
      MpvHandle.create (.error e) inst lr = (.error e, false))
    ∧ (∀ (f : MpvFunctions) (lr : Int),
      MpvHandle.create (.ok f) 0 lr = (.error "mpv_create failed", false))
    ∧ (∀ (f : MpvFunctions) (inst : Nat) (lr : Int), inst ≠ 0 →
      ∃ st, (MpvHandle.create (.ok f) inst lr).1 = .ok st
        ∧ st.handle = inst ∧ st.handle ≠ 0 ∧ st.attached = false)
    ∧ (∀ (f : MpvFunctions) (inst : Nat) (lr lr' : Int),
      MpvHandle.create (.ok f) inst lr = MpvHandle.create (.ok f) inst lr') := by
  refine ⟨?_, ?_, ?_, ?_⟩
  · intro e inst lr
    rfl
  · intro f lr
    rfl
  · intro f inst lr h
    exact ⟨{ handle := inst, attached := false },
      by simp [MpvHandle.create, h], rfl, h, rfl⟩
  · intro f inst lr lr'
    rfl

/-- Witness for claim C9: a non-null native instance yields a live,
non-attached handle. -/
theorem create_spec_witness :
    ∃ st, (MpvHandle.create (.ok funcs0) 5 0).1 = .ok st
      ∧ st.handle = 5 ∧ st.handle ≠ 0 ∧ st.attached = false :=
  create_spec.2.2.1 funcs0 5 0 (by decide)

/-- Claim C10: `attach_hwnd` is atomic on failure — when both the option
attempt and the property attempt report a negative status it returns an
error and the handle state (in particular the attached flag and the
instance pointer) is exactly the state before the call. -/
theorem attach_hwnd_atomic_on_failure (f : MpvFunctions)
    (st : MpvHandleState) (hwnd : Nat) (optResult propResult : Int)
    (h1 : optResult < 0) (h2 : propResult < 0) :
    (MpvHandle.attach_hwnd (.ok f) st hwnd optResult propResult).1 =
      .error (MpvHandle.widFailMessage optResult propResult hwnd)
    ∧ (MpvHandle.attach_hwnd (.ok f) st hwnd optResult propResult).2 = st := by
  unfold MpvHandle.attach_hwnd
  simp [h1, h2]

/-- Witness for claim C10: both attempts fail with concrete statuses and
the handle state is untouched. -/
theorem attach_hwnd_atomic_on_failure_witness :
    (MpvHandle.attach_hwnd (.ok funcs0) st0 7 (-1) (-2)).1 =
      .error (MpvHandle.widFailMessage (-1) (-2) 7)
    ∧ (MpvHandle.attach_hwnd (.ok funcs0) st0 7 (-1) (-2)).2 = st0 :=
  attach_hwnd_atomic_on_failure funcs0 st0 7 (-1) (-2) (by decide) (by decide)
